import Mathlib

/-!
Verification of the kubeconfig resolution and client construction logic of
`pilot/pkg/serviceregistry/kube/client.go`.

The Go functions `ResolveConfig`, `CreateInterface`,
`CreateInterfaceFromClusterConfig` and `createInterface` are shallowly
embedded as pure Lean functions over an explicit environment:

* `Env` captures the ambient process state read by `ResolveConfig`:
  the `KUBECONFIG` environment variable (empty string when unset, as in
  Go's `os.Getenv`), the result of `user.Current()` (the home directory
  when it succeeds, `none` when it errs), and the result of `os.Stat`
  on each path.
* `World` extends `Env` with the external client-go collaborators used by
  the builders: `rest.InClusterConfig`, `kubernetes.NewForConfig`,
  `clientcmd.LoadFromFile` and the `ClientConfig()` method of the value
  returned by `clientcmd.NewDefaultClientConfig`.

Go's `(value, error)` multiple returns are modelled as records holding the
value slots and an `Option GoErr`; `log.Info` is modelled by a list of
emitted log lines in the result of `ResolveConfig`.
-/

/-- Result of `os.Stat(path)`: either a `FileInfo` (here only its size
matters, as the code only calls `info.Size()`), or an error for which
`os.IsNotExist` holds, or some other error. -/
inductive StatRes where
  | found (size : Nat)
  | errNotExist
  | errOther (msg : String)
deriving DecidableEq, Repr

/-- Errors produced by the embedded code.  `configNotFound` models
`fmt.Errorf("kubernetes configuration file %q does not exist", kubeconfig)`;
`configAccess` models `multierror.Append(err, fmt.Errorf("kubernetes
configuration file %q", kubeconfig))`, carrying the underlying cause and the
path; `external` models an error bubbled up from a client-go collaborator. -/
inductive GoErr where
  | configNotFound (path : String)
  | configAccess (underlying : String) (path : String)
  | external (msg : String)
deriving DecidableEq, Repr

/-- Ambient process state read by `ResolveConfig`:
`kubeconfigEnv` is `os.Getenv("KUBECONFIG")` (empty when unset),
`currentUser` is `some homeDir` when `user.Current()` succeeds and `none`
when it returns an error, and `stat` is `os.Stat`. -/
structure Env where
  kubeconfigEnv : String
  currentUser : Option String
  stat : String → StatRes

/-- The result of `ResolveConfig`: the returned path, the returned error,
and the informational log lines emitted during the call. -/
structure ResolveOut where
  path : String
  err : Option GoErr
  logs : List String
deriving DecidableEq, Repr

/-- `ResolveConfig` from `client.go`, translated statement by statement.
The two `let kubeconfig := ...` bindings mirror the two reassignments of
the `kubeconfig` variable (the `KUBECONFIG` fallback and the home-directory
fallback, the latter guarded by a stat of the current — still empty —
`kubeconfig` value), and the final `if` mirrors the stat-based dispatch on
the non-empty candidate. -/
def ResolveConfig (env : Env) (kubeconfig : String) : ResolveOut :=
  let kubeconfig := if kubeconfig = "" then env.kubeconfigEnv else kubeconfig
  let kubeconfig :=
    if kubeconfig = "" then
      match env.currentUser with
      | some homeDir =>
          let defaultCfg := homeDir ++ "/.kube/config"
          match env.stat kubeconfig with
          | .found _ => kubeconfig
          | _ => defaultCfg
      | none => kubeconfig
    else kubeconfig
  if kubeconfig ≠ "" then
    match env.stat kubeconfig with
    | .errNotExist => ⟨"", some (.configNotFound kubeconfig), []⟩
    | .errOther msg => ⟨"", some (.configAccess msg kubeconfig), []⟩
    | .found size =>
        if size = 0 then ⟨"", none, ["using in-cluster configuration"]⟩
        else ⟨kubeconfig, none, []⟩
  else ⟨kubeconfig, none, []⟩

/-- The candidate-selection phase of `ResolveConfig`: the value held by the
`kubeconfig` variable after the two fallback reassignments, just before the
stat-based dispatch. -/
def candidateOf (env : Env) (kubeconfig : String) : String :=
  let kubeconfig := if kubeconfig = "" then env.kubeconfigEnv else kubeconfig
  if kubeconfig = "" then
    match env.currentUser with
    | some homeDir =>
        let defaultCfg := homeDir ++ "/.kube/config"
        match env.stat kubeconfig with
        | .found _ => kubeconfig
        | _ => defaultCfg
    | none => kubeconfig
  else kubeconfig

/-- The stat-based dispatch phase of `ResolveConfig`, applied to the
candidate produced by `candidateOf`. -/
def statPhase (env : Env) (kubeconfig : String) : ResolveOut :=
  if kubeconfig ≠ "" then
    match env.stat kubeconfig with
    | .errNotExist => ⟨"", some (.configNotFound kubeconfig), []⟩
    | .errOther msg => ⟨"", some (.configAccess msg kubeconfig), []⟩
    | .found size =>
        if size = 0 then ⟨"", none, ["using in-cluster configuration"]⟩
        else ⟨kubeconfig, none, []⟩
  else ⟨kubeconfig, none, []⟩

/-- `ResolveConfig` is the stat phase applied to the selected candidate. -/
theorem resolve_eq (env : Env) (k : String) :
    ResolveConfig env k = statPhase env (candidateOf env k) := rfl

example :
    ResolveConfig ⟨"", none, fun _ => .errNotExist⟩ "" = ⟨"", none, []⟩ := by
  decide

/-- `*rest.Config`: low-level connection parameters.  Opaque to this unit;
only its identity matters, so it is modelled by its server host. -/
structure RestConfig where
  host : String
deriving DecidableEq, Repr

/-- `kubernetes.Interface`: the client handle returned by
`kubernetes.NewForConfig`.  Opaque to this unit. -/
structure ClientHandle where
  handleId : Nat
deriving DecidableEq, Repr

/-- `*clientcmdapi.Config`: the in-memory cluster configuration loaded by
`clientcmd.LoadFromFile` or supplied directly by the caller.  This unit
never inspects its fields, so the essential shape suffices. -/
structure ClusterConfig where
  currentContext : String := ""
  clusters : List (String × String) := []
  contexts : List (String × String) := []
deriving DecidableEq, Repr

/-- `clientcmd.ConfigOverrides`: the override policy passed to
`clientcmd.NewDefaultClientConfig`.  All fields default to the zero value,
mirroring the struct literal `&clientcmd.ConfigOverrides{}`. -/
structure ConfigOverrides where
  authInfoToken : String := ""
  clusterServer : String := ""
  contextCluster : String := ""
  currentContext : String := ""
deriving DecidableEq, Repr

/-- The zero-value override policy `&clientcmd.ConfigOverrides{}`. -/
def emptyOverrides : ConfigOverrides := {}

/-- The client configuration built by `clientcmd.NewDefaultClientConfig`:
a cluster configuration paired with an override policy. -/
structure DirectClientConfig where
  config : ClusterConfig
  overrides : ConfigOverrides
deriving DecidableEq, Repr

/-- `Env` plus the external client-go collaborators called by the
builders: `rest.InClusterConfig()`, `kubernetes.NewForConfig`,
`clientcmd.LoadFromFile` and the `ClientConfig()` method of the client
configuration built by `clientcmd.NewDefaultClientConfig`. -/
structure World where
  env : Env
  inClusterConfig : Except GoErr RestConfig
  newForConfig : RestConfig → Except GoErr ClientHandle
  loadFromFile : String → Except GoErr ClusterConfig
  clientConfigOf : DirectClientConfig → Except GoErr RestConfig

/-- Result of the builders: the `(*rest.Config, kubernetes.Interface,
error)` triple, with Go nil pointers modelled by `none`. -/
structure BuildOut where
  restConfig : Option RestConfig
  client : Option ClientHandle
  err : Option GoErr
deriving DecidableEq, Repr

/-- The tail of `createInterface` after the client configuration has been
built: `clientConfig.ClientConfig()` followed by
`kubernetes.NewForConfig(rest)`, each error returned immediately. -/
def buildFromClientConfig (w : World) (clientConfig : DirectClientConfig) :
    BuildOut :=
  match w.clientConfigOf clientConfig with
  | .error err => ⟨none, none, some err⟩
  | .ok rest =>
      match w.newForConfig rest with
      | .error err => ⟨none, none, some err⟩
      | .ok client => ⟨some rest, some client, none⟩

/-- `createInterface` from `client.go`: build the client configuration from
the cluster configuration and the zero-value overrides, then derive the
rest config and the client handle. -/
def createInterface (w : World) (clusterConfig : ClusterConfig) : BuildOut :=
  buildFromClientConfig w ⟨clusterConfig, emptyOverrides⟩

/-- `CreateInterfaceFromClusterConfig` from `client.go`. -/
def CreateInterfaceFromClusterConfig (w : World) (clusterConfig : ClusterConfig) :
    BuildOut :=
  createInterface w clusterConfig

/-- `CreateInterface` from `client.go`: resolve the kubeconfig path, serve
the in-cluster case when the resolved path is empty, otherwise load the
file and delegate to `createInterface`. -/
def CreateInterface (w : World) (kubeconfig : String) : BuildOut :=
  match ResolveConfig w.env kubeconfig with
  | ⟨_, some err, _⟩ => ⟨none, none, some err⟩
  | ⟨kube, none, _⟩ =>
      if kube = "" then
        match w.inClusterConfig with
        | .ok restConfig =>
            match w.newForConfig restConfig with
            | .ok client => ⟨some restConfig, some client, none⟩
            | .error err2 => ⟨none, none, some err2⟩
        | .error err1 => ⟨none, none, some err1⟩
      else
        match w.loadFromFile kube with
        | .error err => ⟨none, none, some err⟩
        | .ok clusterConfig => createInterface w clusterConfig

/-- Concrete scenario environment: `KUBECONFIG=/b/cfg`, a resolvable home
directory, and a filesystem on which `/a/cfg` and `/b/cfg` exist non-empty
and everything else is absent. -/
def scenarioEnv : Env :=
  ⟨"/b/cfg", some "/home/user",
   fun p => if p = "/a/cfg" then .found 5
            else if p = "/b/cfg" then .found 7
            else .errNotExist⟩

/-- C1: a non-empty explicit path is the candidate and the result never
depends on the environment variable or the home directory; with an empty
explicit path and a non-empty environment variable, the environment value
is the candidate and the result never depends on the home directory; in
the concrete scenario with explicit `/a/cfg` and env `/b/cfg` both
existing non-empty, Resolve returns `/a/cfg`. -/
theorem resolve_priority :
    (∀ (env1 env2 : Env) (explicit : String), explicit ≠ "" →
        env1.stat = env2.stat →
        ResolveConfig env1 explicit = ResolveConfig env2 explicit) ∧
    (∀ (env : Env) (explicit : String), explicit ≠ "" →
        candidateOf env explicit = explicit) ∧
    (∀ (env1 env2 : Env), env1.kubeconfigEnv ≠ "" →
        env1.kubeconfigEnv = env2.kubeconfigEnv → env1.stat = env2.stat →
        ResolveConfig env1 "" = ResolveConfig env2 "") ∧
    (∀ env : Env, env.kubeconfigEnv ≠ "" →
        candidateOf env "" = env.kubeconfigEnv) ∧
    ResolveConfig scenarioEnv "/a/cfg" = ⟨"/a/cfg", none, []⟩ := by
  refine ⟨?_, ?_, ?_, ?_, ?_⟩
  · rintro ⟨e1, u1, s1⟩ ⟨e2, u2, s2⟩ explicit hne hs
    cases hs
    simp [ResolveConfig, hne]
  · intro env explicit hne
    simp [candidateOf, hne]
  · rintro ⟨e1, u1, s1⟩ ⟨e2, u2, s2⟩ hne heq hs
    cases heq
    cases hs
    simp [ResolveConfig, hne]
  · intro env hne
    simp [candidateOf, hne]
  · rfl

/-- Witness for C1 at concrete inputs. -/
theorem resolve_priority_witness :
    ResolveConfig ⟨"/b/cfg", some "/home/user", scenarioEnv.stat⟩ "/a/cfg" =
        ResolveConfig ⟨"", none, scenarioEnv.stat⟩ "/a/cfg" ∧
    candidateOf scenarioEnv "/a/cfg" = "/a/cfg" ∧
    ResolveConfig ⟨"/b/cfg", some "/home/user", scenarioEnv.stat⟩ "" =
        ResolveConfig ⟨"/b/cfg", none, scenarioEnv.stat⟩ "" ∧
    candidateOf scenarioEnv "" = "/b/cfg" :=
  ⟨resolve_priority.1 _ _ "/a/cfg" (by decide) rfl,
   resolve_priority.2.1 scenarioEnv "/a/cfg" (by decide),
   resolve_priority.2.2.1 _ _ (by decide) rfl rfl,
   resolve_priority.2.2.2.1 scenarioEnv (by decide)⟩

/-- C3: with an empty explicit path, an unset/empty environment variable
and a resolvable home directory, the guarding stat runs on the still-empty
candidate path; whenever that stat fails (as `os.Stat("")` always does),
the home default `<home>/.kube/config` becomes the candidate and the rest
of the resolution is the stat dispatch on that default. -/
theorem resolve_home_default :
    ∀ (env : Env) (homeDir : String), env.kubeconfigEnv = "" →
      env.currentUser = some homeDir →
      (∀ s, env.stat "" ≠ .found s) →
      candidateOf env "" = homeDir ++ "/.kube/config" ∧
      ResolveConfig env "" = statPhase env (homeDir ++ "/.kube/config") := by
  rintro ⟨e, u, s⟩ homeDir he hu hstat
  cases he
  cases hu
  have hcand : candidateOf ⟨"", some homeDir, s⟩ "" = homeDir ++ "/.kube/config" := by
    unfold candidateOf
    cases h : s "" with
    | found n => exact absurd h (hstat n)
    | errNotExist => simp [h]
    | errOther m => simp [h]
  exact ⟨hcand, by rw [resolve_eq, hcand]⟩

/-- Witness for C3 at a concrete environment. -/
theorem resolve_home_default_witness :
    candidateOf ⟨"", some "/home/u", fun _ => .errNotExist⟩ "" =
        "/home/u" ++ "/.kube/config" ∧
    ResolveConfig ⟨"", some "/home/u", fun _ => .errNotExist⟩ "" =
        statPhase ⟨"", some "/home/u", fun _ => .errNotExist⟩
          ("/home/u" ++ "/.kube/config") :=
  resolve_home_default ⟨"", some "/home/u", fun _ => .errNotExist⟩ "/home/u"
    rfl rfl (fun _ h => StatRes.noConfusion h)

/-- C7: empty explicit path, unset/empty environment variable and no
resolvable home directory yields the empty sentinel with no error. -/
theorem resolve_no_home_incluster :
    ∀ env : Env, env.kubeconfigEnv = "" → env.currentUser = none →
      ResolveConfig env "" = ⟨"", none, []⟩ := by
  rintro ⟨e, u, s⟩ he hu
  cases he
  cases hu
  simp [ResolveConfig]

/-- Witness for C7 at a concrete environment. -/
theorem resolve_no_home_incluster_witness :
    ResolveConfig ⟨"", none, fun _ => .errNotExist⟩ "" = ⟨"", none, []⟩ :=
  resolve_no_home_incluster ⟨"", none, fun _ => .errNotExist⟩ rfl rfl

/-- C4: a non-empty candidate path (of any origin) denoting an existing
file of size zero makes Resolve return the empty string with no error,
emitting the single informational log line. -/
theorem resolve_empty_file_incluster :
    ∀ (env : Env) (k : String), candidateOf env k ≠ "" →
      env.stat (candidateOf env k) = .found 0 →
      ResolveConfig env k = ⟨"", none, ["using in-cluster configuration"]⟩ := by
  intro env k hc hstat
  rw [resolve_eq]
  unfold statPhase
  simp [hc, hstat]

/-- Witness for C4 at a concrete environment with a zero-byte file. -/
theorem resolve_empty_file_incluster_witness :
    ResolveConfig ⟨"", none, fun _ => .found 0⟩ "/a/cfg" =
      ⟨"", none, ["using in-cluster configuration"]⟩ :=
  resolve_empty_file_incluster ⟨"", none, fun _ => .found 0⟩ "/a/cfg"
    (by decide) rfl

/-- C5: for a non-empty candidate path whose stat reports non-existence,
Resolve fails with the not-found error carrying that exact path; for any
other stat failure it fails with the access error wrapping the underlying
cause and carrying the path. -/
theorem resolve_stat_errors :
    ∀ (env : Env) (k : String), candidateOf env k ≠ "" →
      (env.stat (candidateOf env k) = .errNotExist →
        ResolveConfig env k =
          ⟨"", some (.configNotFound (candidateOf env k)), []⟩) ∧
      (∀ msg, env.stat (candidateOf env k) = .errOther msg →
        ResolveConfig env k =
          ⟨"", some (.configAccess msg (candidateOf env k)), []⟩) := by
  intro env k hc
  constructor
  · intro hstat
    rw [resolve_eq]
    unfold statPhase
    simp [hc, hstat]
  · intro msg hstat
    rw [resolve_eq]
    unfold statPhase
    simp [hc, hstat]

/-- Witness for C5: both error branches at concrete environments. -/
theorem resolve_stat_errors_witness :
    ResolveConfig ⟨"", none, fun _ => .errNotExist⟩ "/a/cfg" =
      ⟨"", some (.configNotFound "/a/cfg"), []⟩ ∧
    ResolveConfig ⟨"", none, fun _ => .errOther "permission denied"⟩ "/a/cfg" =
      ⟨"", some (.configAccess "permission denied" "/a/cfg"), []⟩ :=
  ⟨(resolve_stat_errors ⟨"", none, fun _ => .errNotExist⟩ "/a/cfg"
      (by decide)).1 rfl,
   (resolve_stat_errors ⟨"", none, fun _ => .errOther "permission denied"⟩
      "/a/cfg" (by decide)).2 "permission denied" rfl⟩

/-- C8: a candidate path denoting an existing file of non-zero size is
returned unchanged with no error. -/
theorem resolve_nonzero_returns_path :
    ∀ (env : Env) (k : String) (n : Nat),
      env.stat (candidateOf env k) = .found n → n ≠ 0 →
      ResolveConfig env k = ⟨candidateOf env k, none, []⟩ := by
  intro env k n hstat hn
  rw [resolve_eq]
  unfold statPhase
  by_cases hc : candidateOf env k = ""
  · simp [hc]
  · simp [hc, hstat, hn]

/-- Witness for C8 at a concrete environment with a non-empty file. -/
theorem resolve_nonzero_returns_path_witness :
    ResolveConfig ⟨"", none, fun _ => .found 5⟩ "/a/cfg" =
      ⟨candidateOf ⟨"", none, fun _ => .found 5⟩ "/a/cfg", none, []⟩ :=
  resolve_nonzero_returns_path ⟨"", none, fun _ => .found 5⟩ "/a/cfg" 5
    rfl (by decide)

/-- The stat phase either reports no error or returns the empty path. -/
theorem statPhase_err_or_empty (env : Env) (c : String) :
    (statPhase env c).err = none ∨ (statPhase env c).path = "" := by
  unfold statPhase
  split
  · split
    · right; rfl
    · right; rfl
    · split
      · left; rfl
      · left; rfl
  · left; rfl

/-- C10: whenever Resolve returns a non-nil error the returned path is
empty, and a non-empty returned path comes with a nil error. -/
theorem resolve_err_implies_empty_path :
    ∀ (env : Env) (k : String),
      ((ResolveConfig env k).err ≠ none → (ResolveConfig env k).path = "") ∧
      ((ResolveConfig env k).path ≠ "" → (ResolveConfig env k).err = none) := by
  intro env k
  rw [resolve_eq]
  rcases statPhase_err_or_empty env (candidateOf env k) with h | h
  · exact ⟨fun hne => (hne h).elim, fun _ => h⟩
  · exact ⟨fun _ => h, fun hp => (hp h).elim⟩

/-- Witness for C10 at a concrete failing environment. -/
theorem resolve_err_implies_empty_path_witness :
    (ResolveConfig ⟨"", none, fun _ => .errNotExist⟩ "/x").path = "" :=
  (resolve_err_implies_empty_path ⟨"", none, fun _ => .errNotExist⟩ "/x").1
    (by decide)

/-- Both-or-neither shape of a builder result: either the rest config and
the client are both present with a nil error, or both are nil with a
non-nil error. -/
def bothOrNeither (b : BuildOut) : Prop :=
  (b.restConfig.isSome ∧ b.client.isSome ∧ b.err = none) ∨
  (b.restConfig = none ∧ b.client = none ∧ b.err.isSome)

/-- The shared construction tail never yields a partial result. -/
theorem buildFromClientConfig_bothOrNeither (w : World)
    (dcc : DirectClientConfig) : bothOrNeither (buildFromClientConfig w dcc) := by
  unfold bothOrNeither buildFromClientConfig
  split
  · right; simp
  · split
    · right; simp
    · left; simp

/-- C2: every call to `CreateInterface` and
`CreateInterfaceFromClusterConfig` returns either both a rest config and a
client handle with a nil error, or neither with a non-nil error — never
exactly one of the two values. -/
theorem build_no_partial_success :
    ∀ (w : World) (k : String) (cc : ClusterConfig),
      bothOrNeither (CreateInterface w k) ∧
      bothOrNeither (CreateInterfaceFromClusterConfig w cc) := by
  intro w k cc
  constructor
  · unfold CreateInterface
    split
    · right; simp
    · split
      · split
        · split
          · left; simp
          · right; simp
        · right; simp
      · split
        · right; simp
        · exact buildFromClientConfig_bothOrNeither w _
  · exact buildFromClientConfig_bothOrNeither w _

/-- C6: when resolution yields the empty sentinel, `CreateInterface` builds
from in-cluster identity: its result is exactly the in-cluster construction
sequence, a failing in-cluster construction fails the whole call with that
error, and the result does not depend on the file-loading or file-derived
configuration collaborators at all. -/
theorem incluster_no_fallback :
    ∀ (w : World) (k : String),
      (ResolveConfig w.env k).path = "" → (ResolveConfig w.env k).err = none →
      (CreateInterface w k =
        match w.inClusterConfig with
        | .ok rc =>
            match w.newForConfig rc with
            | .ok c => ⟨some rc, some c, none⟩
            | .error err2 => ⟨none, none, some err2⟩
        | .error err1 => ⟨none, none, some err1⟩) ∧
      (∀ e, w.inClusterConfig = .error e →
        CreateInterface w k = ⟨none, none, some e⟩) ∧
      (∀ lff ccf,
        CreateInterface ⟨w.env, w.inClusterConfig, w.newForConfig, lff, ccf⟩ k =
          CreateInterface w k) := by
  intro w k hp he
  have hmain : CreateInterface w k =
      match w.inClusterConfig with
      | .ok rc =>
          match w.newForConfig rc with
          | .ok c => ⟨some rc, some c, none⟩
          | .error err2 => ⟨none, none, some err2⟩
      | .error err1 => ⟨none, none, some err1⟩ := by
    unfold CreateInterface
    rcases hr : ResolveConfig w.env k with ⟨p, e, l⟩
    rw [hr] at hp he
    simp only at hp he
    cases he
    cases hp
    simp
  refine ⟨hmain, ?_, ?_⟩
  · intro e hic
    rw [hmain, hic]
  · intro lff ccf
    have hmain2 : CreateInterface ⟨w.env, w.inClusterConfig, w.newForConfig, lff, ccf⟩ k =
        match w.inClusterConfig with
        | .ok rc =>
            match w.newForConfig rc with
            | .ok c => ⟨some rc, some c, none⟩
            | .error err2 => ⟨none, none, some err2⟩
        | .error err1 => ⟨none, none, some err1⟩ := by
      unfold CreateInterface
      rcases hr : ResolveConfig w.env k with ⟨p, e, l⟩
      rw [hr] at hp he
      simp only at hp he
      cases he
      cases hp
      simp
    rw [hmain2, hmain]

/-- Concrete world whose resolution yields the empty sentinel and whose
in-cluster construction fails. -/
def wIncluster : World :=
  ⟨⟨"", none, fun _ => .errNotExist⟩,
   .error (.external "unable to load in-cluster configuration"),
   fun _ => .error (.external "unreachable"),
   fun _ => .error (.external "unreachable"),
   fun _ => .error (.external "unreachable")⟩

/-- Witness for C6: the in-cluster failure is surfaced unchanged. -/
theorem incluster_no_fallback_witness :
    CreateInterface wIncluster "" =
      ⟨none, none, some (.external "unable to load in-cluster configuration")⟩ :=
  (incluster_no_fallback wIncluster "" rfl rfl).2.1 _ rfl

/-- C9: the shared construction step always pairs the cluster
configuration with the zero-value override policy, and the result of any
call depends on the file-derived configuration collaborator only at
client configurations carrying empty overrides. -/
theorem createInterface_empty_overrides :
    ∀ (w : World) (cc : ClusterConfig),
      (CreateInterfaceFromClusterConfig w cc =
        buildFromClientConfig w ⟨cc, emptyOverrides⟩) ∧
      (createInterface w cc = buildFromClientConfig w ⟨cc, emptyOverrides⟩) ∧
      emptyOverrides.authInfoToken = "" ∧ emptyOverrides.clusterServer = "" ∧
      emptyOverrides.contextCluster = "" ∧ emptyOverrides.currentContext = "" ∧
      (∀ f g : DirectClientConfig → Except GoErr RestConfig,
        (∀ dcc, dcc.overrides = emptyOverrides → f dcc = g dcc) →
        createInterface ⟨w.env, w.inClusterConfig, w.newForConfig, w.loadFromFile, f⟩ cc =
          createInterface ⟨w.env, w.inClusterConfig, w.newForConfig, w.loadFromFile, g⟩ cc) := by
  intro w cc
  refine ⟨rfl, rfl, rfl, rfl, rfl, rfl, ?_⟩
  intro f g hfg
  unfold createInterface buildFromClientConfig
  simp only
  rw [hfg ⟨cc, emptyOverrides⟩ rfl]

/-- Witness for C9 with concrete collaborators agreeing on empty-override
configurations. -/
theorem createInterface_empty_overrides_witness :
    createInterface
        ⟨wIncluster.env, wIncluster.inClusterConfig, wIncluster.newForConfig,
         wIncluster.loadFromFile, fun _ => .ok ⟨"https://h"⟩⟩ {} =
      createInterface
        ⟨wIncluster.env, wIncluster.inClusterConfig, wIncluster.newForConfig,
         wIncluster.loadFromFile,
         fun dcc => if dcc.overrides = emptyOverrides then .ok ⟨"https://h"⟩
                    else .error (.external "overridden")⟩ {} :=
  (createInterface_empty_overrides wIncluster {}).2.2.2.2.2.2 _ _
    (fun dcc h => by simp [h])
